import Mathlib

/-!
# rduino FFI layer: a shallow embedding of `src/ffi/rduino.hpp` / `rduino.cpp`

The C++ layer is a thin, conditionally compiled translation between the
`Rduino*` enumerations and the Arduino core.  The Arduino core itself
(`Arduino.h`) is not part of the repository, so

* native constants (`SERIAL_8N1`, `INPUT_PULLUP`, `INTERNAL1V1`, ...) are
  symbolic constructors named after the macro;
* every call into the core is recorded as a `DriverCall`, and the hardware
  state is the log of the calls made so far (`Hardware`);
* preprocessor conditions (`#ifdef ARDUINO_ARCH_SAMD`, `#ifdef INTERNAL`, ...)
  are boolean parameters of the embedded function.

An `enum class` argument arrives over the C ABI as an `int`; functions that
`switch` on one therefore take the raw `Int` and decode it, so that values
outside the enumeration reach the `default:` label as they do in C++.
-/

namespace Rduino

/-! ## Enumerations of `rduino.hpp` -/

/-- The enumeration `RduinoSerialConfig` (rduino.hpp:126-151), in declaration order. -/
inductive RduinoSerialConfig where
  | Serial5N1 | Serial6N1 | Serial7N1 | Serial8N1
  | Serial5N2 | Serial6N2 | Serial7N2 | Serial8N2
  | Serial5E1 | Serial6E1 | Serial7E1 | Serial8E1
  | Serial5E2 | Serial6E2 | Serial7E2 | Serial8E2
  | Serial5O1 | Serial6O1 | Serial7O1 | Serial8O1
  | Serial5O2 | Serial6O2 | Serial7O2 | Serial8O2
  deriving DecidableEq, Repr

namespace RduinoSerialConfig

/-- Enumerator value: no initialisers are given, so the values are 0..23 in order. -/
def toInt : RduinoSerialConfig → Int
  | Serial5N1 => 0 | Serial6N1 => 1 | Serial7N1 => 2 | Serial8N1 => 3
  | Serial5N2 => 4 | Serial6N2 => 5 | Serial7N2 => 6 | Serial8N2 => 7
  | Serial5E1 => 8 | Serial6E1 => 9 | Serial7E1 => 10 | Serial8E1 => 11
  | Serial5E2 => 12 | Serial6E2 => 13 | Serial7E2 => 14 | Serial8E2 => 15
  | Serial5O1 => 16 | Serial6O1 => 17 | Serial7O1 => 18 | Serial8O1 => 19
  | Serial5O2 => 20 | Serial6O2 => 21 | Serial7O2 => 22 | Serial8O2 => 23

/-- Decoding of a raw `int`: the enumerator with that value, if there is one. -/
def ofInt? : Int → Option RduinoSerialConfig
  | 0 => some Serial5N1 | 1 => some Serial6N1 | 2 => some Serial7N1 | 3 => some Serial8N1
  | 4 => some Serial5N2 | 5 => some Serial6N2 | 6 => some Serial7N2 | 7 => some Serial8N2
  | 8 => some Serial5E1 | 9 => some Serial6E1 | 10 => some Serial7E1 | 11 => some Serial8E1
  | 12 => some Serial5E2 | 13 => some Serial6E2 | 14 => some Serial7E2 | 15 => some Serial8E2
  | 16 => some Serial5O1 | 17 => some Serial6O1 | 18 => some Serial7O1 | 19 => some Serial8O1
  | 20 => some Serial5O2 | 21 => some Serial6O2 | 22 => some Serial7O2 | 23 => some Serial8O2
  | _ => none

/-- All 24 enumerators. -/
def all : List RduinoSerialConfig :=
  [Serial5N1, Serial6N1, Serial7N1, Serial8N1, Serial5N2, Serial6N2, Serial7N2, Serial8N2,
   Serial5E1, Serial6E1, Serial7E1, Serial8E1, Serial5E2, Serial6E2, Serial7E2, Serial8E2,
   Serial5O1, Serial6O1, Serial7O1, Serial8O1, Serial5O2, Serial6O2, Serial7O2, Serial8O2]

/-- Number of data bits named by the enumerator (`Serial<bits><parity><stop>`). -/
def dataBits : RduinoSerialConfig → Nat
  | Serial5N1 | Serial5N2 | Serial5E1 | Serial5E2 | Serial5O1 | Serial5O2 => 5
  | Serial6N1 | Serial6N2 | Serial6E1 | Serial6E2 | Serial6O1 | Serial6O2 => 6
  | Serial7N1 | Serial7N2 | Serial7E1 | Serial7E2 | Serial7O1 | Serial7O2 => 7
  | Serial8N1 | Serial8N2 | Serial8E1 | Serial8E2 | Serial8O1 | Serial8O2 => 8

end RduinoSerialConfig

/-- The Arduino core macros `SERIAL_<bits><parity><stop>`, as symbolic names. -/
inductive NativeSerial where
  | SERIAL_5N1 | SERIAL_6N1 | SERIAL_7N1 | SERIAL_8N1
  | SERIAL_5N2 | SERIAL_6N2 | SERIAL_7N2 | SERIAL_8N2
  | SERIAL_5E1 | SERIAL_6E1 | SERIAL_7E1 | SERIAL_8E1
  | SERIAL_5E2 | SERIAL_6E2 | SERIAL_7E2 | SERIAL_8E2
  | SERIAL_5O1 | SERIAL_6O1 | SERIAL_7O1 | SERIAL_8O1
  | SERIAL_5O2 | SERIAL_6O2 | SERIAL_7O2 | SERIAL_8O2
  deriving DecidableEq, Repr

/-- The native macro whose name matches the enumerator: `Serial<x>` to `SERIAL_<x>`.
This is the naming correspondence of the interface, not part of the code. -/
def sameName : RduinoSerialConfig → NativeSerial
  | .Serial5N1 => .SERIAL_5N1 | .Serial6N1 => .SERIAL_6N1
  | .Serial7N1 => .SERIAL_7N1 | .Serial8N1 => .SERIAL_8N1
  | .Serial5N2 => .SERIAL_5N2 | .Serial6N2 => .SERIAL_6N2
  | .Serial7N2 => .SERIAL_7N2 | .Serial8N2 => .SERIAL_8N2
  | .Serial5E1 => .SERIAL_5E1 | .Serial6E1 => .SERIAL_6E1
  | .Serial7E1 => .SERIAL_7E1 | .Serial8E1 => .SERIAL_8E1
  | .Serial5E2 => .SERIAL_5E2 | .Serial6E2 => .SERIAL_6E2
  | .Serial7E2 => .SERIAL_7E2 | .Serial8E2 => .SERIAL_8E2
  | .Serial5O1 => .SERIAL_5O1 | .Serial6O1 => .SERIAL_6O1
  | .Serial7O1 => .SERIAL_7O1 | .Serial8O1 => .SERIAL_8O1
  | .Serial5O2 => .SERIAL_5O2 | .Serial6O2 => .SERIAL_6O2
  | .Serial7O2 => .SERIAL_7O2 | .Serial8O2 => .SERIAL_8O2

/-! ## Calls into the Arduino core -/

/-- Which member of the anonymous union of `RduinoSerial` a call goes through. -/
inductive Member where
  | hw | usb
  deriving DecidableEq, Repr

/-- The variable handed to `begin` as its second argument: `uart_config`
(`UARTClass::UARTModes`) or `usart_config` (`USARTClass::USARTModes`) in the SAM
build, `real_config` (`unsigned int`) in the other builds. -/
inductive BeginArg where
  | uart_config (code : NativeSerial)
  | usart_config (code : NativeSerial)
  | real_config (code : NativeSerial)
  deriving DecidableEq, Repr

/-- The Arduino core macros for pin modes. -/
inductive NativePinMode where
  | INPUT | INPUT_PULLUP | OUTPUT | INPUT_PULLDOWN
  deriving DecidableEq, Repr

/-- The Arduino core names for analog references: the AVR macros and the SAMD
`eAnalogReference` enumerators. -/
inductive NativeAnalogReference where
  | DEFAULT | EXTERNAL | INTERNAL | INTERNAL1V1 | INTERNAL2V56
  | AR_DEFAULT | AR_EXTERNAL | AR_INTERNAL
  | AR_INTERNAL1V0 | AR_INTERNAL1V65 | AR_INTERNAL2V23
  deriving DecidableEq, Repr

/-- The Arduino core macros for interrupt triggers. -/
inductive NativeInterruptMode where
  | LOW | CHANGE | RISING | FALLING | HIGH
  deriving DecidableEq, Repr

/-- One call into the Arduino core, with its arguments.  Pointers (the backing
peripheral, the interrupt service routine) are addresses. -/
inductive DriverCall where
  | pinMode (pin : Nat) (mode : NativePinMode)
  | analogReference (type : NativeAnalogReference)
  | attachInterrupt (interrupt : Nat) (isr : Nat) (mode : NativeInterruptMode)
  | detachInterrupt (interrupt : Nat)
  | serialBegin (member : Member) (peripheral : Nat) (speed : Nat) (config : BeginArg)
  deriving DecidableEq, Repr

/-- The hardware state seen through the core: the calls made so far, oldest first. -/
structure Hardware where
  calls : List DriverCall
  deriving DecidableEq, Repr

/-- Perform one call into the core. -/
def Hardware.call (h : Hardware) (c : DriverCall) : Hardware :=
  { calls := h.calls ++ [c] }

/-! ## Serial ports (rduino.cpp:345-375) -/

/-- The tag `RduinoSerial::Type`. -/
inductive SerialType where
  | Uart | Usart | Usb
  deriving DecidableEq, Repr

/-- The struct `RduinoSerial`: the tag and the union of `hw` and `usb`, which is one
pointer, the address of the backing peripheral. -/
structure RduinoSerial where
  type : SerialType
  peripheral : Nat
  deriving DecidableEq, Repr

/-- The locals of the SAM `rduino_serial_begin` after its first `switch`. -/
structure SamLocals where
  is_uart_config : Bool
  uart_config : NativeSerial
  usart_config : NativeSerial
  deriving DecidableEq, Repr

/-- The first `switch` of the SAM `rduino_serial_begin` (rduino.cpp:438-520): the
locals start as `false`, `SERIAL_8N1`, `SERIAL_5N1`; `none` is the `default:`
label, which returns `false`. -/
def samConfigSwitch (config : Int) : Option SamLocals :=
  let init : SamLocals :=
    { is_uart_config := false, uart_config := .SERIAL_8N1, usart_config := .SERIAL_5N1 }
  match RduinoSerialConfig.ofInt? config with
  | some .Serial8N1 => some { init with uart_config := .SERIAL_8N1, is_uart_config := true }
  | some .Serial8E1 => some { init with uart_config := .SERIAL_8E1, is_uart_config := true }
  | some .Serial8O1 => some { init with uart_config := .SERIAL_8O1, is_uart_config := true }
  | some .Serial5N1 => some { init with usart_config := .SERIAL_5N1 }
  | some .Serial6N1 => some { init with usart_config := .SERIAL_6N1 }
  | some .Serial7N1 => some { init with usart_config := .SERIAL_7N1 }
  | some .Serial5N2 => some { init with usart_config := .SERIAL_5N2 }
  | some .Serial6N2 => some { init with usart_config := .SERIAL_6N2 }
  | some .Serial7N2 => some { init with usart_config := .SERIAL_7N2 }
  | some .Serial8N2 => some { init with usart_config := .SERIAL_8N2 }
  | some .Serial5E1 => some { init with usart_config := .SERIAL_5E1 }
  | some .Serial6E1 => some { init with usart_config := .SERIAL_6E1 }
  | some .Serial7E1 => some { init with usart_config := .SERIAL_7E1 }
  | some .Serial5E2 => some { init with usart_config := .SERIAL_5E2 }
  | some .Serial6E2 => some { init with usart_config := .SERIAL_6E2 }
  | some .Serial7E2 => some { init with usart_config := .SERIAL_7E2 }
  | some .Serial8E2 => some { init with usart_config := .SERIAL_8E2 }
  | some .Serial5O1 => some { init with usart_config := .SERIAL_5O1 }
  | some .Serial6O1 => some { init with usart_config := .SERIAL_6O1 }
  | some .Serial7O1 => some { init with usart_config := .SERIAL_7O1 }
  | some .Serial5O2 => some { init with usart_config := .SERIAL_5O2 }
  | some .Serial6O2 => some { init with usart_config := .SERIAL_6O2 }
  | some .Serial7O2 => some { init with usart_config := .SERIAL_7O2 }
  | some .Serial8O2 => some { init with usart_config := .SERIAL_8O2 }
  | none => none

/-- The function `rduino_serial_begin` under `#ifdef ARDUINO_ARCH_SAM`
(rduino.cpp:436-549).  The `Usart` case calls through
`static_cast<USARTClass *>(serial->hw)`, that is, through the `hw` member. -/
def rduino_serial_begin_sam (serial : RduinoSerial) (speed : Nat) (config : Int)
    (h : Hardware) : Bool × Hardware :=
  match samConfigSwitch config with
  | none => (false, h)
  | some l =>
    match serial.type with
    | .Usb =>
      if l.is_uart_config then
        (true, h.call (.serialBegin .usb serial.peripheral speed (.uart_config l.uart_config)))
      else
        (true, h.call (.serialBegin .usb serial.peripheral speed (.usart_config l.usart_config)))
    | .Usart =>
      if l.is_uart_config then
        (true, h.call (.serialBegin .hw serial.peripheral speed (.uart_config l.uart_config)))
      else
        (true, h.call (.serialBegin .hw serial.peripheral speed (.usart_config l.usart_config)))
    | .Uart =>
      if l.is_uart_config then
        (true, h.call (.serialBegin .hw serial.peripheral speed (.uart_config l.uart_config)))
      else
        (false, h)

/-- The first `switch` of the non-SAM `rduino_serial_begin` (rduino.cpp:552-628):
the value of `real_config`; `none` is the `default:` label, which returns `false`. -/
def realConfigSwitch (config : Int) : Option NativeSerial :=
  match RduinoSerialConfig.ofInt? config with
  | some .Serial5N1 => some .SERIAL_5N1
  | some .Serial6N1 => some .SERIAL_6N1
  | some .Serial7N1 => some .SERIAL_7N1
  | some .Serial8N1 => some .SERIAL_8N1
  | some .Serial5N2 => some .SERIAL_5N2
  | some .Serial6N2 => some .SERIAL_6N2
  | some .Serial7N2 => some .SERIAL_7N2
  | some .Serial8N2 => some .SERIAL_8N2
  | some .Serial5E1 => some .SERIAL_5E1
  | some .Serial6E1 => some .SERIAL_6E1
  | some .Serial7E1 => some .SERIAL_7E1
  | some .Serial8E1 => some .SERIAL_8E1
  | some .Serial5E2 => some .SERIAL_5E2
  | some .Serial6E2 => some .SERIAL_6E2
  | some .Serial7E2 => some .SERIAL_7E2
  | some .Serial8E2 => some .SERIAL_8E2
  | some .Serial5O1 => some .SERIAL_5O1
  | some .Serial6O1 => some .SERIAL_6O1
  | some .Serial7O1 => some .SERIAL_7O1
  | some .Serial8O1 => some .SERIAL_8O1
  | some .Serial5O2 => some .SERIAL_5O2
  | some .Serial6O2 => some .SERIAL_6O2
  | some .Serial7O2 => some .SERIAL_7O2
  | some .Serial8O2 => some .SERIAL_8O2
  | none => none

/-- The function `rduino_serial_begin` under the `#else` of `#ifdef ARDUINO_ARCH_SAM`
(rduino.cpp:550-637). -/
def rduino_serial_begin_other (serial : RduinoSerial) (speed : Nat) (config : Int)
    (h : Hardware) : Bool × Hardware :=
  match realConfigSwitch config with
  | none => (false, h)
  | some real_config =>
    if serial.type = .Usb then
      (true, h.call (.serialBegin .usb serial.peripheral speed (.real_config real_config)))
    else
      (true, h.call (.serialBegin .hw serial.peripheral speed (.real_config real_config)))

/-- The function `rduino_serial_begin`, selected by `#ifdef ARDUINO_ARCH_SAM`. -/
def rduino_serial_begin (ARDUINO_ARCH_SAM : Bool) (serial : RduinoSerial) (speed : Nat)
    (config : Int) (h : Hardware) : Bool × Hardware :=
  if ARDUINO_ARCH_SAM then rduino_serial_begin_sam serial speed config h
  else rduino_serial_begin_other serial speed config h

/-- The member of the union that is the backing peripheral of a port: `usb` for the
tag `Usb`, `hw` otherwise (as in `RduinoSerial::stream`). -/
def RduinoSerial.member (serial : RduinoSerial) : Member :=
  if serial.type = .Usb then .usb else .hw

/-! ## Pin capability (rduino.cpp:124-134) -/

/-- The function `rduino_digital_pin_to_interrupt` (rduino.cpp:128-134).  The macros
`digitalPinToInterrupt` and `NOT_AN_INTERRUPT` come from the board's core and are
parameters. -/
def rduino_digital_pin_to_interrupt (digitalPinToInterrupt : Nat → Int)
    (NOT_AN_INTERRUPT : Int) (pin : Nat) : Int :=
  let interrupt := digitalPinToInterrupt pin
  if interrupt = NOT_AN_INTERRUPT then -1 else interrupt

/-- Modelled from the spec: the board macros `digitalPinToInterrupt` and
`NOT_AN_INTERRUPT` are defined by the Arduino core, outside this repository.  The
spec asks of them that a pin inside the interrupt-capable set of the board has a
non-negative line, and that two different capable pins have different lines; a pin
outside the set is reported as `NOT_AN_INTERRUPT`.  Pins are `uint8_t`. -/
def InterruptDriverContract (digitalPinToInterrupt : Nat → Int)
    (NOT_AN_INTERRUPT : Int) : Prop :=
  (∀ pin, pin < 256 → digitalPinToInterrupt pin ≠ NOT_AN_INTERRUPT →
      0 ≤ digitalPinToInterrupt pin) ∧
  (∀ p, p < 256 → ∀ q, q < 256 →
      digitalPinToInterrupt p ≠ NOT_AN_INTERRUPT →
      digitalPinToInterrupt q ≠ NOT_AN_INTERRUPT →
      p ≠ q → digitalPinToInterrupt p ≠ digitalPinToInterrupt q)

instance (d : Nat → Int) (n : Int) : Decidable (InterruptDriverContract d n) :=
  @instDecidableAnd _ _ (by infer_instance)
    (@Nat.decidableBallLT 256 _ (fun _ _ => by infer_instance))

/-- A sample board map: pin 2 is line 0, pin 3 is line 1, no other pin has a line. -/
def sampleDigitalPinToInterrupt (pin : Nat) : Int :=
  if pin = 2 then 0 else if pin = 3 then 1 else -1

/-! ## Digital I/O (rduino.hpp:49-56, rduino.cpp:137-158) -/

/-- The enumeration `RduinoPinMode`, in declaration order. -/
inductive RduinoPinMode where
  | Input | InputPullup | Output | InputPulldown
  deriving DecidableEq, Repr

namespace RduinoPinMode

/-- Enumerator value. -/
def toInt : RduinoPinMode → Int
  | Input => 0 | InputPullup => 1 | Output => 2 | InputPulldown => 3

/-- Decoding of a raw `int`. -/
def ofInt? : Int → Option RduinoPinMode
  | 0 => some Input | 1 => some InputPullup | 2 => some Output | 3 => some InputPulldown
  | _ => none

end RduinoPinMode

/-- The `switch` of `rduino_pin_mode`: the value of `real_mode`, or `none` for the
`default:` label.  The `InputPulldown` label exists under `#ifdef ARDUINO_ARCH_SAMD`. -/
def pinModeSwitch (ARDUINO_ARCH_SAMD : Bool) (mode : Int) : Option NativePinMode :=
  match RduinoPinMode.ofInt? mode with
  | some .Input => some .INPUT
  | some .InputPullup => some .INPUT_PULLUP
  | some .Output => some .OUTPUT
  | some .InputPulldown => if ARDUINO_ARCH_SAMD then some .INPUT_PULLDOWN else none
  | none => none

/-- The function `rduino_pin_mode` (rduino.cpp:137-158). -/
def rduino_pin_mode (ARDUINO_ARCH_SAMD : Bool) (pin : Nat) (mode : Int)
    (h : Hardware) : Hardware :=
  match pinModeSwitch ARDUINO_ARCH_SAMD mode with
  | none => h
  | some real_mode => h.call (.pinMode pin real_mode)

/-! ## Analog reference (rduino.hpp:63-76, rduino.cpp:170-231) -/

/-- The enumeration `RduinoAnalogReference`, in declaration order. -/
inductive RduinoAnalogReference where
  | Default | External | Internal
  | Internal1v1 | Internal2v56
  | Internal1v0 | Internal1v65 | Internal2v23
  deriving DecidableEq, Repr

namespace RduinoAnalogReference

/-- Enumerator value. -/
def toInt : RduinoAnalogReference → Int
  | Default => 0 | External => 1 | Internal => 2
  | Internal1v1 => 3 | Internal2v56 => 4
  | Internal1v0 => 5 | Internal1v65 => 6 | Internal2v23 => 7

/-- Decoding of a raw `int`. -/
def ofInt? : Int → Option RduinoAnalogReference
  | 0 => some Default | 1 => some External | 2 => some Internal
  | 3 => some Internal1v1 | 4 => some Internal2v56
  | 5 => some Internal1v0 | 6 => some Internal1v65 | 7 => some Internal2v23
  | _ => none

end RduinoAnalogReference

/-- Which of the optional analog reference macros the AVR core defines. -/
structure AvrMacros where
  INTERNAL : Bool
  INTERNAL1V1 : Bool
  INTERNAL2V56 : Bool
  deriving DecidableEq, Repr

/-- The `switch` of the AVR `rduino_analog_reference` (rduino.cpp:173-198): the value
of `real_type`, or `none` for the `default:` label.  The body of `case Internal`
is compiled under `#ifdef INTERNAL`; without it control falls through to the next
statement that is compiled.  The labels `Internal1v1` and `Internal2v56` exist only
under their own `#ifdef`, so without it the request goes to `default:`. -/
def avrReferenceSwitch (m : AvrMacros) (type : Int) : Option NativeAnalogReference :=
  match RduinoAnalogReference.ofInt? type with
  | some .Default => some .DEFAULT
  | some .External => some .EXTERNAL
  | some .Internal =>
    if m.INTERNAL then some .INTERNAL
    else if m.INTERNAL1V1 then some .INTERNAL1V1
    else if m.INTERNAL2V56 then some .INTERNAL2V56
    else none
  | some .Internal1v1 => if m.INTERNAL1V1 then some .INTERNAL1V1 else none
  | some .Internal2v56 => if m.INTERNAL2V56 then some .INTERNAL2V56 else none
  | some .Internal1v0 => none
  | some .Internal1v65 => none
  | some .Internal2v23 => none
  | none => none

/-- The function `rduino_analog_reference` under `#ifdef ARDUINO_ARCH_AVR`
(rduino.cpp:170-201). -/
def rduino_analog_reference_avr (m : AvrMacros) (type : Int) (h : Hardware) : Hardware :=
  match avrReferenceSwitch m type with
  | none => h
  | some real_type => h.call (.analogReference real_type)

/-- The `switch` of the SAMD `rduino_analog_reference` (rduino.cpp:206-228). -/
def samdReferenceSwitch (type : Int) : Option NativeAnalogReference :=
  match RduinoAnalogReference.ofInt? type with
  | some .Default => some .AR_DEFAULT
  | some .External => some .AR_EXTERNAL
  | some .Internal => some .AR_INTERNAL
  | some .Internal1v0 => some .AR_INTERNAL1V0
  | some .Internal1v65 => some .AR_INTERNAL1V65
  | some .Internal2v23 => some .AR_INTERNAL2V23
  | some .Internal1v1 => none
  | some .Internal2v56 => none
  | none => none

/-- The function `rduino_analog_reference` under `#ifdef ARDUINO_ARCH_SAMD`
(rduino.cpp:203-231). -/
def rduino_analog_reference_samd (type : Int) (h : Hardware) : Hardware :=
  match samdReferenceSwitch type with
  | none => h
  | some real_type => h.call (.analogReference real_type)

/-! ## External interrupts (rduino.hpp:108-116, rduino.cpp:314-342) -/

/-- The enumeration `RduinoInterruptMode`, in declaration order. -/
inductive RduinoInterruptMode where
  | Low | Change | Rising | Falling | High
  deriving DecidableEq, Repr

namespace RduinoInterruptMode

/-- Enumerator value. -/
def toInt : RduinoInterruptMode → Int
  | Low => 0 | Change => 1 | Rising => 2 | Falling => 3 | High => 4

/-- Decoding of a raw `int`. -/
def ofInt? : Int → Option RduinoInterruptMode
  | 0 => some Low | 1 => some Change | 2 => some Rising | 3 => some Falling
  | 4 => some High
  | _ => none

end RduinoInterruptMode

/-- The `switch` of `rduino_attach_interrupt`: the value of `real_mode`, or `none`
for the `default:` label.  The `High` label exists under `#ifdef ARDUINO_ARCH_SAMD`. -/
def interruptModeSwitch (ARDUINO_ARCH_SAMD : Bool) (mode : Int) :
    Option NativeInterruptMode :=
  match RduinoInterruptMode.ofInt? mode with
  | some .Low => some .LOW
  | some .Change => some .CHANGE
  | some .Rising => some .RISING
  | some .Falling => some .FALLING
  | some .High => if ARDUINO_ARCH_SAMD then some .HIGH else none
  | none => none

/-- The function `rduino_attach_interrupt` (rduino.cpp:314-338). -/
def rduino_attach_interrupt (ARDUINO_ARCH_SAMD : Bool) (interrupt : Nat) (isr : Nat)
    (mode : Int) (h : Hardware) : Hardware :=
  match interruptModeSwitch ARDUINO_ARCH_SAMD mode with
  | none => h
  | some real_mode => h.call (.attachInterrupt interrupt isr real_mode)

/-- The function `rduino_detach_interrupt` (rduino.cpp:340-342). -/
def rduino_detach_interrupt (interrupt : Nat) (h : Hardware) : Hardware :=
  h.call (.detachInterrupt interrupt)

/-! ## Pin tables (rduino.hpp:12-38, rduino.cpp:8-122) -/

/-- A pin macro of the board used as an array initialiser: `A<i>` or `DAC<i>`. -/
inductive PinName where
  | A (i : Nat)
  | DAC (i : Nat)
  deriving DecidableEq, Repr

/-- What the board and the build define, as far as the pin tables read it:
`NUM_ANALOG_INPUTS` and `NUM_ANALOG_OUTPUTS` (`none` when undefined), whether
`ARDUINO_SAM_DUE` is defined, and for which `i` the macro `PIN_DAC<i>` is defined. -/
structure BoardConfig where
  NUM_ANALOG_INPUTS : Option Nat
  NUM_ANALOG_OUTPUTS : Option Nat
  ARDUINO_SAM_DUE : Bool
  PIN_DAC : Nat → Bool

/-- The macro `RDUINO_NUM_ANALOG_INPUTS` (rduino.hpp:12-21), the declared length of
`RDUINO_ANALOG_INPUT_PINS`. -/
def RDUINO_NUM_ANALOG_INPUTS (b : BoardConfig) : Nat :=
  match b.NUM_ANALOG_INPUTS with
  | some n => if n > 16 then 16 else n
  | none => 0

/-- The macro `RDUINO_NUM_ANALOG_OUTPUTS` (rduino.hpp:23-35), the declared length of
`RDUINO_ANALOG_OUTPUT_PINS`. -/
def RDUINO_NUM_ANALOG_OUTPUTS (b : BoardConfig) : Nat :=
  match b.NUM_ANALOG_OUTPUTS with
  | some n => if n > 8 then 8 else n
  | none => if b.ARDUINO_SAM_DUE then 2 else 0

/-- An initialiser under `#if cond ... #endif`. -/
def initIf (cond : Bool) (p : PinName) : List PinName :=
  if cond then [p] else []

/-- The initialiser list of `RDUINO_ANALOG_INPUT_PINS` (rduino.cpp:8-57). -/
def RDUINO_ANALOG_INPUT_PINS (b : BoardConfig) : List PinName :=
  initIf (RDUINO_NUM_ANALOG_INPUTS b > 0) (.A 0) ++
  initIf (RDUINO_NUM_ANALOG_INPUTS b > 1) (.A 1) ++
  initIf (RDUINO_NUM_ANALOG_INPUTS b > 2) (.A 2) ++
  initIf (RDUINO_NUM_ANALOG_INPUTS b > 3) (.A 3) ++
  initIf (RDUINO_NUM_ANALOG_INPUTS b > 4) (.A 4) ++
  initIf (RDUINO_NUM_ANALOG_INPUTS b > 5) (.A 5) ++
  initIf (RDUINO_NUM_ANALOG_INPUTS b > 6) (.A 6) ++
  initIf (RDUINO_NUM_ANALOG_INPUTS b > 7) (.A 7) ++
  initIf (RDUINO_NUM_ANALOG_INPUTS b > 8) (.A 8) ++
  initIf (RDUINO_NUM_ANALOG_INPUTS b > 9) (.A 9) ++
  initIf (RDUINO_NUM_ANALOG_INPUTS b > 10) (.A 10) ++
  initIf (RDUINO_NUM_ANALOG_INPUTS b > 11) (.A 11) ++
  initIf (RDUINO_NUM_ANALOG_INPUTS b > 12) (.A 12) ++
  initIf (RDUINO_NUM_ANALOG_INPUTS b > 13) (.A 13) ++
  initIf (RDUINO_NUM_ANALOG_INPUTS b > 14) (.A 14) ++
  initIf (RDUINO_NUM_ANALOG_INPUTS b > 15) (.A 15)

/-- The initialiser for slot `i` of the output table outside the Due:
`DAC<i>` under `#ifdef PIN_DAC<i>`, else `A<i>`. -/
def dacOrA (b : BoardConfig) (i : Nat) : PinName :=
  if b.PIN_DAC i then .DAC i else .A i

/-- The initialiser list of `RDUINO_ANALOG_OUTPUT_PINS` (rduino.cpp:59-122). -/
def RDUINO_ANALOG_OUTPUT_PINS (b : BoardConfig) : List PinName :=
  if b.ARDUINO_SAM_DUE then
    [.DAC 0, .DAC 1]
  else
    initIf (RDUINO_NUM_ANALOG_OUTPUTS b > 0) (dacOrA b 0) ++
    initIf (RDUINO_NUM_ANALOG_OUTPUTS b > 1) (dacOrA b 1) ++
    initIf (RDUINO_NUM_ANALOG_OUTPUTS b > 2) (dacOrA b 2) ++
    initIf (RDUINO_NUM_ANALOG_OUTPUTS b > 3) (dacOrA b 3) ++
    initIf (RDUINO_NUM_ANALOG_OUTPUTS b > 4) (dacOrA b 4) ++
    initIf (RDUINO_NUM_ANALOG_OUTPUTS b > 5) (dacOrA b 5) ++
    initIf (RDUINO_NUM_ANALOG_OUTPUTS b > 6) (dacOrA b 6) ++
    initIf (RDUINO_NUM_ANALOG_OUTPUTS b > 7) (dacOrA b 7)

/-- The Arduino Due as the workaround of rduino.hpp:30-32 describes it: twelve analog
inputs, `NUM_ANALOG_OUTPUTS` undefined. -/
def dueBoard : BoardConfig :=
  { NUM_ANALOG_INPUTS := some 12, NUM_ANALOG_OUTPUTS := none,
    ARDUINO_SAM_DUE := true, PIN_DAC := fun _ => false }

/-- The board configurations the tables are written for.  The header records that
the Arduino Due does not define `NUM_ANALOG_OUTPUTS` (rduino.hpp:30-32), and the Due
branch of the output table (rduino.cpp:60-61) is written for that case. -/
def BoardConfig.Supported (b : BoardConfig) : Prop :=
  b.ARDUINO_SAM_DUE = true → b.NUM_ANALOG_OUTPUTS = none

instance (b : BoardConfig) : Decidable (BoardConfig.Supported b) := by
  unfold BoardConfig.Supported
  infer_instance

/-- An AVR core like that of the ATmega2560: `INTERNAL` undefined, `INTERNAL1V1` and
`INTERNAL2V56` defined. -/
def megaMacros : AvrMacros :=
  { INTERNAL := false, INTERNAL1V1 := true, INTERNAL2V56 := true }

/-- The three enumerators the SAM build passes as a UART mode. -/
def isUartConfig : RduinoSerialConfig → Bool
  | .Serial8N1 | .Serial8E1 | .Serial8O1 => true
  | _ => false

/-- The second argument `begin` is given for an accepted config: in the SAM build the
UART-mode variable for `Serial8N1`/`8E1`/`8O1` and the USART-mode variable for the
other 21, in the other builds `real_config`; always the macro of the same name. -/
def expectedBeginArg (sam : Bool) (c : RduinoSerialConfig) : BeginArg :=
  if sam then
    (if c = .Serial8N1 ∨ c = .Serial8E1 ∨ c = .Serial8O1 then .uart_config (sameName c)
     else .usart_config (sameName c))
  else .real_config (sameName c)

/-! ## Well-known ports (rduino.cpp:345-425) -/

/-- The C++ class of a serial object of the core.  It selects the constructor of
`RduinoSerial` by overload: `RduinoSerialHardware *`, `USARTClass *` (a constructor
compiled under `#ifdef ARDUINO_ARCH_SAM`, the only build that has the class) or
`RduinoSerialUsb *`. -/
inductive PeripheralClass where
  | RduinoSerialHardware | USARTClass | RduinoSerialUsb
  deriving DecidableEq, Repr

/-- A serial object of the core (`Serial`, `Serial1`, `SerialUSB`, ...): its class and
its address. -/
structure Peripheral where
  cls : PeripheralClass
  address : Nat
  deriving DecidableEq, Repr

/-- The constructors of `RduinoSerial` (rduino.cpp:362-366): each stores the pointer
and sets the tag that belongs to the class of the argument. -/
def RduinoSerial.construct (p : Peripheral) : RduinoSerial :=
  match p.cls with
  | .USARTClass => { type := .Usart, peripheral := p.address }
  | .RduinoSerialHardware => { type := .Uart, peripheral := p.address }
  | .RduinoSerialUsb => { type := .Usb, peripheral := p.address }

/-- What the board defines, as far as the port accessors read it: the object `Serial`,
and each `SERIAL_PORT_*` macro with the object it names (`none` when undefined). -/
structure SerialBoard where
  Serial : Peripheral
  SERIAL_PORT_USBVIRTUAL : Option Peripheral
  SERIAL_PORT_MONITOR : Option Peripheral
  SERIAL_PORT_LINUXBRIDGE : Option Peripheral
  SERIAL_PORT_HARDWARE : Option Peripheral
  SERIAL_PORT_HARDWARE_OPEN : Option Peripheral
  deriving DecidableEq, Repr

/-- The six function-local statics named `serial`, one in each accessor.  The address
of a static is its identity, so a non-null `RduinoSerial *` is one of these. -/
inductive StaticSlot where
  | serial_default | serial_usbvirtual | serial_monitor
  | serial_linuxbridge | serial_hardware | serial_hardware_open
  deriving DecidableEq, Repr

/-- The storage of the function-local statics: `none` until control first passes
through the declaration. -/
def Statics : Type := StaticSlot → Option RduinoSerial

/-- The storage at program start. -/
def Statics.initial : Statics := fun _ => none

/-- The statements `static RduinoSerial serial(&X); return &serial;`: the object is
constructed on the first call and kept on later ones; the result is its address. -/
def staticSerial (slot : StaticSlot) (x : Peripheral) (s : Statics) :
    Option StaticSlot × Statics :=
  match s slot with
  | some _ => (some slot, s)
  | none => (some slot, fun k => if k = slot then some (RduinoSerial.construct x) else s k)

/-- The function `rduino_serial_default` (rduino.cpp:377-380). -/
def rduino_serial_default (b : SerialBoard) (s : Statics) : Option StaticSlot × Statics :=
  staticSerial .serial_default b.Serial s

/-- The function `rduino_serial_usbvirtual` (rduino.cpp:382-389); `none` is `nullptr`. -/
def rduino_serial_usbvirtual (b : SerialBoard) (s : Statics) : Option StaticSlot × Statics :=
  match b.SERIAL_PORT_USBVIRTUAL with
  | some x => staticSerial .serial_usbvirtual x s
  | none => (none, s)

/-- The function `rduino_serial_monitor` (rduino.cpp:391-398). -/
def rduino_serial_monitor (b : SerialBoard) (s : Statics) : Option StaticSlot × Statics :=
  match b.SERIAL_PORT_MONITOR with
  | some x => staticSerial .serial_monitor x s
  | none => (none, s)

/-- The function `rduino_serial_linuxbridge` (rduino.cpp:400-407). -/
def rduino_serial_linuxbridge (b : SerialBoard) (s : Statics) : Option StaticSlot × Statics :=
  match b.SERIAL_PORT_LINUXBRIDGE with
  | some x => staticSerial .serial_linuxbridge x s
  | none => (none, s)

/-- The function `rduino_serial_hardware` (rduino.cpp:409-416). -/
def rduino_serial_hardware (b : SerialBoard) (s : Statics) : Option StaticSlot × Statics :=
  match b.SERIAL_PORT_HARDWARE with
  | some x => staticSerial .serial_hardware x s
  | none => (none, s)

/-- The function `rduino_serial_hardware_open` (rduino.cpp:418-425). -/
def rduino_serial_hardware_open (b : SerialBoard) (s : Statics) :
    Option StaticSlot × Statics :=
  match b.SERIAL_PORT_HARDWARE_OPEN with
  | some x => staticSerial .serial_hardware_open x s
  | none => (none, s)

/-- The accessor that owns a static. -/
def accessor : StaticSlot → SerialBoard → Statics → Option StaticSlot × Statics
  | .serial_default => rduino_serial_default
  | .serial_usbvirtual => rduino_serial_usbvirtual
  | .serial_monitor => rduino_serial_monitor
  | .serial_linuxbridge => rduino_serial_linuxbridge
  | .serial_hardware => rduino_serial_hardware
  | .serial_hardware_open => rduino_serial_hardware_open

/-- The role behind an accessor: the object of the board it is written for, `none`
when the board does not define the macro.  `rduino_serial_default` uses `Serial`,
which every board has. -/
def SerialBoard.role (b : SerialBoard) : StaticSlot → Option Peripheral
  | .serial_default => some b.Serial
  | .serial_usbvirtual => b.SERIAL_PORT_USBVIRTUAL
  | .serial_monitor => b.SERIAL_PORT_MONITOR
  | .serial_linuxbridge => b.SERIAL_PORT_LINUXBRIDGE
  | .serial_hardware => b.SERIAL_PORT_HARDWARE
  | .serial_hardware_open => b.SERIAL_PORT_HARDWARE_OPEN

/-- The statics hold what the accessors put there: a static that has been constructed
was constructed from the object of its role.  True of `Statics.initial`, and kept by
every accessor; nothing else in rduino.cpp writes a `RduinoSerial`. -/
def Statics.Sound (b : SerialBoard) (s : Statics) : Prop :=
  ∀ slot v, s slot = some v → ∃ x, b.role slot = some x ∧ v = RduinoSerial.construct x

/-- A board in the style of the Leonardo: `Serial` is the USB port, `Serial1` the
hardware port; no Linux bridge. -/
def sampleSerialBoard : SerialBoard :=
  { Serial := { cls := .RduinoSerialUsb, address := 100 },
    SERIAL_PORT_USBVIRTUAL := some { cls := .RduinoSerialUsb, address := 100 },
    SERIAL_PORT_MONITOR := some { cls := .RduinoSerialUsb, address := 100 },
    SERIAL_PORT_LINUXBRIDGE := none,
    SERIAL_PORT_HARDWARE := some { cls := .RduinoSerialHardware, address := 200 },
    SERIAL_PORT_HARDWARE_OPEN := some { cls := .RduinoSerialHardware, address := 200 } }

/-! ## Helper lemmas -/

theorem serialConfig_ofInt_toInt (c : RduinoSerialConfig) :
    RduinoSerialConfig.ofInt? c.toInt = some c := by
  cases c <;> rfl

theorem serialConfig_toInt_of_ofInt (raw : Int) (c : RduinoSerialConfig)
    (h : RduinoSerialConfig.ofInt? raw = some c) : raw = c.toInt := by
  unfold RduinoSerialConfig.ofInt? at h
  split at h <;> first | (cases h; rfl) | (exact absurd h (by simp))

theorem serialConfig_ofInt_none_of_ne (raw : Int)
    (h : ∀ c : RduinoSerialConfig, raw ≠ c.toInt) : RduinoSerialConfig.ofInt? raw = none := by
  cases hd : RduinoSerialConfig.ofInt? raw with
  | some c => exact absurd (serialConfig_toInt_of_ofInt raw c hd) (h c)
  | none => rfl

theorem pinMode_toInt_of_ofInt (raw : Int) (m : RduinoPinMode)
    (h : RduinoPinMode.ofInt? raw = some m) : raw = m.toInt := by
  unfold RduinoPinMode.ofInt? at h
  split at h <;> first | (cases h; rfl) | (exact absurd h (by simp))

theorem pinMode_ofInt_none_of_ne (raw : Int)
    (h : ∀ m : RduinoPinMode, raw ≠ m.toInt) : RduinoPinMode.ofInt? raw = none := by
  cases hd : RduinoPinMode.ofInt? raw with
  | some m => exact absurd (pinMode_toInt_of_ofInt raw m hd) (h m)
  | none => rfl

theorem analogReference_toInt_of_ofInt (raw : Int) (r : RduinoAnalogReference)
    (h : RduinoAnalogReference.ofInt? raw = some r) : raw = r.toInt := by
  unfold RduinoAnalogReference.ofInt? at h
  split at h <;> first | (cases h; rfl) | (exact absurd h (by simp))

theorem analogReference_ofInt_none_of_ne (raw : Int)
    (h : ∀ r : RduinoAnalogReference, raw ≠ r.toInt) :
    RduinoAnalogReference.ofInt? raw = none := by
  cases hd : RduinoAnalogReference.ofInt? raw with
  | some r => exact absurd (analogReference_toInt_of_ofInt raw r hd) (h r)
  | none => rfl

theorem interruptMode_toInt_of_ofInt (raw : Int) (m : RduinoInterruptMode)
    (h : RduinoInterruptMode.ofInt? raw = some m) : raw = m.toInt := by
  unfold RduinoInterruptMode.ofInt? at h
  split at h <;> first | (cases h; rfl) | (exact absurd h (by simp))

theorem interruptMode_ofInt_none_of_ne (raw : Int)
    (h : ∀ m : RduinoInterruptMode, raw ≠ m.toInt) :
    RduinoInterruptMode.ofInt? raw = none := by
  cases hd : RduinoInterruptMode.ofInt? raw with
  | some m => exact absurd (interruptMode_toInt_of_ofInt raw m hd) (h m)
  | none => rfl

theorem RDUINO_NUM_ANALOG_INPUTS_le (b : BoardConfig) : RDUINO_NUM_ANALOG_INPUTS b ≤ 16 := by
  unfold RDUINO_NUM_ANALOG_INPUTS
  split
  · split_ifs <;> omega
  · omega

theorem RDUINO_NUM_ANALOG_OUTPUTS_le (b : BoardConfig) : RDUINO_NUM_ANALOG_OUTPUTS b ≤ 8 := by
  unfold RDUINO_NUM_ANALOG_OUTPUTS
  split
  · split_ifs <;> omega
  · split_ifs <;> omega

/-- The input table is `A0, A1, ...` up to its declared length. -/
theorem RDUINO_ANALOG_INPUT_PINS_eq (b : BoardConfig) :
    RDUINO_ANALOG_INPUT_PINS b = (List.range (RDUINO_NUM_ANALOG_INPUTS b)).map PinName.A := by
  have hle := RDUINO_NUM_ANALOG_INPUTS_le b
  unfold RDUINO_ANALOG_INPUT_PINS
  generalize RDUINO_NUM_ANALOG_INPUTS b = n at hle ⊢
  interval_cases n <;> rfl

/-- Outside the Due, the output table has one entry per slot up to its declared length. -/
theorem RDUINO_ANALOG_OUTPUT_PINS_eq (b : BoardConfig) (hdue : b.ARDUINO_SAM_DUE = false) :
    RDUINO_ANALOG_OUTPUT_PINS b = (List.range (RDUINO_NUM_ANALOG_OUTPUTS b)).map (dacOrA b) := by
  have hle := RDUINO_NUM_ANALOG_OUTPUTS_le b
  unfold RDUINO_ANALOG_OUTPUT_PINS
  rw [hdue]
  generalize RDUINO_NUM_ANALOG_OUTPUTS b = n at hle ⊢
  interval_cases n <;> rfl

theorem samConfigSwitch_toInt (c : RduinoSerialConfig) :
    samConfigSwitch c.toInt =
      some (if isUartConfig c then
          { is_uart_config := true, uart_config := sameName c, usart_config := .SERIAL_5N1 }
        else
          { is_uart_config := false, uart_config := .SERIAL_8N1, usart_config := sameName c }) := by
  cases c <;> rfl

theorem samConfigSwitch_none (raw : Int) (h : RduinoSerialConfig.ofInt? raw = none) :
    samConfigSwitch raw = none := by
  simp [samConfigSwitch, h]

theorem realConfigSwitch_toInt (c : RduinoSerialConfig) :
    realConfigSwitch c.toInt = some (sameName c) := by
  cases c <;> rfl

theorem realConfigSwitch_none (raw : Int) (h : RduinoSerialConfig.ofInt? raw = none) :
    realConfigSwitch raw = none := by
  simp [realConfigSwitch, h]

/-- The SAM `begin` on an enumerator, in closed form. -/
theorem rduino_serial_begin_sam_toInt (serial : RduinoSerial) (speed : Nat)
    (c : RduinoSerialConfig) (h : Hardware) :
    rduino_serial_begin_sam serial speed c.toInt h =
      if isUartConfig c then
        (true, h.call (.serialBegin serial.member serial.peripheral speed
          (.uart_config (sameName c))))
      else if serial.type = .Uart then (false, h)
      else
        (true, h.call (.serialBegin serial.member serial.peripheral speed
          (.usart_config (sameName c)))) := by
  obtain ⟨t, p⟩ := serial
  unfold rduino_serial_begin_sam
  rw [samConfigSwitch_toInt]
  cases t <;> cases hc : isUartConfig c <;> simp [RduinoSerial.member]

/-- The non-SAM `begin` on an enumerator, in closed form. -/
theorem rduino_serial_begin_other_toInt (serial : RduinoSerial) (speed : Nat)
    (c : RduinoSerialConfig) (h : Hardware) :
    rduino_serial_begin_other serial speed c.toInt h =
      (true, h.call (.serialBegin serial.member serial.peripheral speed
        (.real_config (sameName c)))) := by
  obtain ⟨t, p⟩ := serial
  unfold rduino_serial_begin_other
  rw [realConfigSwitch_toInt]
  cases t <;> simp [RduinoSerial.member]

/-- Both builds reject a value that is no enumerator, without a call. -/
theorem rduino_serial_begin_not_enum (sam : Bool) (serial : RduinoSerial) (speed : Nat)
    (raw : Int) (h : Hardware) (hraw : RduinoSerialConfig.ofInt? raw = none) :
    rduino_serial_begin sam serial speed raw h = (false, h) := by
  cases sam
  · simp [rduino_serial_begin, rduino_serial_begin_other, realConfigSwitch_none raw hraw]
  · simp [rduino_serial_begin, rduino_serial_begin_sam, samConfigSwitch_none raw hraw]

/-- Every accessor is its role, if the board has it, put through `staticSerial`. -/
theorem accessor_eq_role (slot : StaticSlot) (b : SerialBoard) (s : Statics) :
    accessor slot b s =
      (match b.role slot with
       | some x => staticSerial slot x s
       | none => (none, s)) := by
  cases slot <;> rfl

theorem staticSerial_fst (slot : StaticSlot) (x : Peripheral) (s : Statics) :
    (staticSerial slot x s).1 = some slot := by
  unfold staticSerial
  cases s slot <;> rfl

theorem staticSerial_snd_self (slot : StaticSlot) (x : Peripheral) (s : Statics) :
    (staticSerial slot x s).2 slot =
      (match s slot with
       | some v => some v
       | none => some (RduinoSerial.construct x)) := by
  unfold staticSerial
  cases hv : s slot <;> simp [hv]

theorem staticSerial_snd_other (slot k : StaticSlot) (x : Peripheral) (s : Statics)
    (hk : k ≠ slot) : (staticSerial slot x s).2 k = s k := by
  unfold staticSerial
  cases hv : s slot <;> simp [hk]

theorem staticSerial_twice (slot : StaticSlot) (x : Peripheral) (s : Statics) :
    staticSerial slot x (staticSerial slot x s).2 = staticSerial slot x s := by
  have h1 := staticSerial_snd_self slot x s
  cases hv : s slot with
  | some v =>
    have : staticSerial slot x s = (some slot, s) := by simp [staticSerial, hv]
    rw [this]
    simp [staticSerial, hv]
  | none =>
    rw [hv] at h1
    have h2 : staticSerial slot x s
        = (some slot, fun k => if k = slot then some (RduinoSerial.construct x) else s k) := by
      simp [staticSerial, hv]
    rw [h2]
    simp [staticSerial]

/-! ## Serial configuration validation -/

/-- C1: in the SAM build, on a port tagged `Uart`, for every baud rate and every one
of the 24 configs, `begin` returns true exactly when the config is `Serial8N1`,
`Serial8E1` or `Serial8O1`; it returns false for the other 21 enumerators, and in
particular for every format with 5, 6 or 7 data bits. -/
theorem sam_uart_begin_accepts_exactly_8x1 (peripheral speed : Nat)
    (c : RduinoSerialConfig) (h : Hardware) :
    ((rduino_serial_begin true ⟨.Uart, peripheral⟩ speed c.toInt h).1 = true ↔
        (c = .Serial8N1 ∨ c = .Serial8E1 ∨ c = .Serial8O1)) ∧
    (¬ (c = .Serial8N1 ∨ c = .Serial8E1 ∨ c = .Serial8O1) →
        (rduino_serial_begin true ⟨.Uart, peripheral⟩ speed c.toInt h).1 = false) ∧
    (c.dataBits = 5 ∨ c.dataBits = 6 ∨ c.dataBits = 7 →
        (rduino_serial_begin true ⟨.Uart, peripheral⟩ speed c.toInt h).1 = false) ∧
    c ∈ RduinoSerialConfig.all ∧
    RduinoSerialConfig.all.length = 24 ∧
    (RduinoSerialConfig.all.filter (fun k =>
        !(rduino_serial_begin true ⟨.Uart, peripheral⟩ speed k.toInt h).1)).length = 21 := by
  refine ⟨?_, ?_, ?_, by cases c <;> simp [RduinoSerialConfig.all], rfl, rfl⟩
  · cases c <;> simp [rduino_serial_begin, rduino_serial_begin_sam_toInt, isUartConfig]
  · cases c <;> simp [rduino_serial_begin, rduino_serial_begin_sam_toInt, isUartConfig]
  · cases c <;>
      simp [rduino_serial_begin, rduino_serial_begin_sam_toInt, isUartConfig,
        RduinoSerialConfig.dataBits]

/-- C2 (as stated, refuted): in the non-SAM build a port tagged `Uart` does not
reject the 5-data-bit format `Serial5N1`; `begin` returns true. -/
theorem other_uart_begin_accepts_5N1 :
    ¬ ((rduino_serial_begin false ⟨.Uart, 0⟩ 9600
        (RduinoSerialConfig.toInt .Serial5N1) ⟨[]⟩).1 = false) := by
  decide

/-- C2 (amended): in the non-SAM build, on a port tagged `Uart`, for every baud rate
`begin` returns true for every one of the 24 configs, those with 5, 6 or 7 data
bits included, and hands the config to the `hw` peripheral; it returns false only
for a value that is no enumerator. -/
theorem other_uart_begin_accepts_all (peripheral speed : Nat) (h : Hardware) :
    (∀ c : RduinoSerialConfig,
      rduino_serial_begin false ⟨.Uart, peripheral⟩ speed c.toInt h =
        (true, h.call (.serialBegin .hw peripheral speed (.real_config (sameName c))))) ∧
    (∀ raw : Int, (∀ c : RduinoSerialConfig, raw ≠ c.toInt) →
      (rduino_serial_begin false ⟨.Uart, peripheral⟩ speed raw h).1 = false) := by
  constructor
  · intro c
    simp [rduino_serial_begin, rduino_serial_begin_other_toInt, RduinoSerial.member]
  · intro raw hraw
    rw [rduino_serial_begin_not_enum _ _ _ _ _
      (serialConfig_ofInt_none_of_ne raw hraw)]

/-- C3: on a port tagged `Usart` or `Usb`, for every baud rate and every one of the
24 configs, `begin` returns true, in the SAM build and in the non-SAM build. -/
theorem usart_usb_begin_accepts_all (sam : Bool) (peripheral speed : Nat)
    (c : RduinoSerialConfig) (h : Hardware) :
    (rduino_serial_begin sam ⟨.Usart, peripheral⟩ speed c.toInt h).1 = true ∧
    (rduino_serial_begin sam ⟨.Usb, peripheral⟩ speed c.toInt h).1 = true := by
  cases sam <;> cases hc : isUartConfig c <;>
    simp [rduino_serial_begin, rduino_serial_begin_sam_toInt,
      rduino_serial_begin_other_toInt, hc]

/-- C4: rejection is atomic.  For every build, port, baud rate and raw config value
(enumerator or not), if `begin` returns false then the hardware state after the call
is the state before it: no call was made. -/
theorem begin_rejection_is_atomic (sam : Bool) (serial : RduinoSerial) (speed : Nat)
    (config : Int) (h : Hardware)
    (hfalse : (rduino_serial_begin sam serial speed config h).1 = false) :
    (rduino_serial_begin sam serial speed config h).2 = h ∧
    (rduino_serial_begin sam serial speed config h).2.calls = h.calls := by
  cases hd : RduinoSerialConfig.ofInt? config with
  | none => simp [rduino_serial_begin_not_enum sam serial speed config h hd]
  | some c =>
    have hc := serialConfig_toInt_of_ofInt config c hd
    subst hc
    cases sam
    · simp [rduino_serial_begin, rduino_serial_begin_other_toInt] at hfalse
    · simp only [rduino_serial_begin, rduino_serial_begin_sam_toInt, if_true] at hfalse ⊢
      cases hu : isUartConfig c <;> by_cases ht : serial.type = .Uart <;> simp_all

/-- C4, witness: a `Uart` port of the SAM build asked for `Serial5N1`. -/
theorem begin_rejection_is_atomic_witness :
    (rduino_serial_begin true ⟨.Uart, 1⟩ 9600 0 ⟨[.detachInterrupt 2]⟩).1 = false ∧
    (rduino_serial_begin true ⟨.Uart, 1⟩ 9600 0 ⟨[.detachInterrupt 2]⟩).2
      = ⟨[.detachInterrupt 2]⟩ ∧
    (rduino_serial_begin true ⟨.Uart, 1⟩ 9600 0 ⟨[.detachInterrupt 2]⟩).2.calls
      = [.detachInterrupt 2] :=
  ⟨by decide, begin_rejection_is_atomic true ⟨.Uart, 1⟩ 9600 0 ⟨[.detachInterrupt 2]⟩ (by decide)⟩

/-- C5: whenever `begin` returns true, the raw config is one of the 24 enumerators
and exactly one call was made: `begin` on the backing peripheral of the port (through
`usb` for the tag `Usb`, through `hw` otherwise), with the baud rate of the caller
and the native constant named like the config, passed in the SAM build as UART mode
for `Serial8N1`/`8E1`/`8O1` and as USART mode for the other 21. -/
theorem begin_success_calls_once (sam : Bool) (serial : RduinoSerial) (speed : Nat)
    (config : Int) (h : Hardware)
    (htrue : (rduino_serial_begin sam serial speed config h).1 = true) :
    ∃ c : RduinoSerialConfig, config = c.toInt ∧
      (rduino_serial_begin sam serial speed config h).2.calls =
        h.calls ++ [.serialBegin (if serial.type = .Usb then .usb else .hw)
          serial.peripheral speed (expectedBeginArg sam c)] := by
  cases hd : RduinoSerialConfig.ofInt? config with
  | none => simp [rduino_serial_begin_not_enum sam serial speed config h hd] at htrue
  | some c =>
    have hc := serialConfig_toInt_of_ofInt config c hd
    subst hc
    refine ⟨c, rfl, ?_⟩
    cases sam
    · simp [rduino_serial_begin, rduino_serial_begin_other_toInt, RduinoSerial.member,
        Hardware.call, expectedBeginArg]
    · simp only [rduino_serial_begin, rduino_serial_begin_sam_toInt, if_true] at htrue ⊢
      have hexp : expectedBeginArg true c =
          if isUartConfig c then .uart_config (sameName c)
          else .usart_config (sameName c) := by
        cases c <;> rfl
      rw [hexp]
      cases hu : isUartConfig c <;> by_cases ht : serial.type = .Uart <;>
        simp_all [RduinoSerial.member, Hardware.call]

/-- C5, witness: a `Usart` port of the SAM build asked for `Serial7E2` (raw 14). -/
theorem begin_success_calls_once_witness :
    (rduino_serial_begin true ⟨.Usart, 5⟩ 115200 14 ⟨[]⟩).1 = true ∧
    ∃ c : RduinoSerialConfig, (14 : Int) = c.toInt ∧
      (rduino_serial_begin true ⟨.Usart, 5⟩ 115200 14 ⟨[]⟩).2.calls =
        ([] : List DriverCall) ++
          [.serialBegin (if (⟨.Usart, 5⟩ : RduinoSerial).type = .Usb then .usb else .hw)
            (⟨.Usart, 5⟩ : RduinoSerial).peripheral 115200 (expectedBeginArg true c)] :=
  ⟨by decide, begin_success_calls_once true ⟨.Usart, 5⟩ 115200 14 ⟨[]⟩ (by decide)⟩

/-! ## Pin capability, digital I/O, analog reference, interrupts -/

/-- C6: for every pin (a `uint8_t`), `rduino_digital_pin_to_interrupt` returns -1
exactly when the board reports `NOT_AN_INTERRUPT` for the pin, and otherwise returns
the line of the driver unchanged; that line is non-negative, and two different
interrupt-capable pins get different lines.  The board macros are taken under the
contract the spec gives them. -/
theorem pin_to_interrupt_line (digitalPinToInterrupt : Nat → Int) (NOT_AN_INTERRUPT : Int)
    (hboard : InterruptDriverContract digitalPinToInterrupt NOT_AN_INTERRUPT)
    (pin : Nat) (hpin : pin < 256) :
    (rduino_digital_pin_to_interrupt digitalPinToInterrupt NOT_AN_INTERRUPT pin = -1 ↔
        digitalPinToInterrupt pin = NOT_AN_INTERRUPT) ∧
    (digitalPinToInterrupt pin ≠ NOT_AN_INTERRUPT →
        rduino_digital_pin_to_interrupt digitalPinToInterrupt NOT_AN_INTERRUPT pin
          = digitalPinToInterrupt pin ∧
        0 ≤ rduino_digital_pin_to_interrupt digitalPinToInterrupt NOT_AN_INTERRUPT pin) ∧
    (∀ q, q < 256 → digitalPinToInterrupt pin ≠ NOT_AN_INTERRUPT →
        digitalPinToInterrupt q ≠ NOT_AN_INTERRUPT → pin ≠ q →
        rduino_digital_pin_to_interrupt digitalPinToInterrupt NOT_AN_INTERRUPT pin ≠
          rduino_digital_pin_to_interrupt digitalPinToInterrupt NOT_AN_INTERRUPT q) := by
  obtain ⟨hnonneg, hdistinct⟩ := hboard
  refine ⟨?_, ?_, ?_⟩
  · constructor
    · intro hr
      by_contra hne
      have h0 := hnonneg pin hpin hne
      simp only [rduino_digital_pin_to_interrupt, if_neg hne] at hr
      omega
    · intro he
      simp [rduino_digital_pin_to_interrupt, he]
  · intro hne
    simp only [rduino_digital_pin_to_interrupt, if_neg hne]
    exact ⟨trivial, hnonneg pin hpin hne⟩
  · intro q hq hp hqn hpq
    simp only [rduino_digital_pin_to_interrupt, if_neg hp, if_neg hqn]
    exact hdistinct pin hpin q hq hp hqn hpq

/-- C6, witness: the sample board, pin 3. -/
theorem pin_to_interrupt_line_witness :
    InterruptDriverContract sampleDigitalPinToInterrupt (-1) ∧ 3 < 256 ∧
    ((rduino_digital_pin_to_interrupt sampleDigitalPinToInterrupt (-1) 3 = -1 ↔
        sampleDigitalPinToInterrupt 3 = -1) ∧
    (sampleDigitalPinToInterrupt 3 ≠ -1 →
        rduino_digital_pin_to_interrupt sampleDigitalPinToInterrupt (-1) 3
          = sampleDigitalPinToInterrupt 3 ∧
        0 ≤ rduino_digital_pin_to_interrupt sampleDigitalPinToInterrupt (-1) 3) ∧
    (∀ q, q < 256 → sampleDigitalPinToInterrupt 3 ≠ -1 →
        sampleDigitalPinToInterrupt q ≠ -1 → 3 ≠ q →
        rduino_digital_pin_to_interrupt sampleDigitalPinToInterrupt (-1) 3 ≠
          rduino_digital_pin_to_interrupt sampleDigitalPinToInterrupt (-1) q)) := by
  have hboard : InterruptDriverContract sampleDigitalPinToInterrupt (-1) := by
    refine ⟨?_, ?_⟩
    · intro pin _ hp
      unfold sampleDigitalPinToInterrupt at hp ⊢
      split_ifs at hp ⊢ <;> omega
    · intro p _ q _ hp hq hpq
      unfold sampleDigitalPinToInterrupt at hp hq ⊢
      split_ifs at hp hq ⊢ <;> omega
  exact ⟨hboard, by decide,
    pin_to_interrupt_line sampleDigitalPinToInterrupt (-1) hboard 3 (by decide)⟩

/-- C7: `rduino_pin_mode` calls `pinMode` exactly once, with the same pin and the
native mode, for `Input`, `InputPullup` and `Output` on every family and for
`InputPulldown` on SAMD; it makes no driver call and leaves the state unchanged for
`InputPulldown` on a non-SAMD build and for any value outside the enumeration. -/
theorem pin_mode_calls (samd : Bool) (pin : Nat) (h : Hardware) :
    (rduino_pin_mode samd pin (RduinoPinMode.toInt .Input) h).calls
        = h.calls ++ [.pinMode pin .INPUT] ∧
    (rduino_pin_mode samd pin (RduinoPinMode.toInt .InputPullup) h).calls
        = h.calls ++ [.pinMode pin .INPUT_PULLUP] ∧
    (rduino_pin_mode samd pin (RduinoPinMode.toInt .Output) h).calls
        = h.calls ++ [.pinMode pin .OUTPUT] ∧
    (rduino_pin_mode true pin (RduinoPinMode.toInt .InputPulldown) h).calls
        = h.calls ++ [.pinMode pin .INPUT_PULLDOWN] ∧
    rduino_pin_mode false pin (RduinoPinMode.toInt .InputPulldown) h = h ∧
    (∀ raw : Int, (∀ m : RduinoPinMode, raw ≠ m.toInt) →
        rduino_pin_mode samd pin raw h = h) := by
  refine ⟨rfl, rfl, rfl, rfl, rfl, ?_⟩
  intro raw hraw
  simp [rduino_pin_mode, pinModeSwitch, pinMode_ofInt_none_of_ne raw hraw]

/-- C8 (as stated, refuted): on an AVR build whose core defines `INTERNAL1V1` but not
`INTERNAL`, the supported reference `Internal` does not lead to
`analogReference(INTERNAL)`: the call made is `analogReference(INTERNAL1V1)`. -/
theorem avr_internal_not_same_name :
    (rduino_analog_reference_avr megaMacros
        (RduinoAnalogReference.toInt .Internal) ⟨[]⟩).calls
          = [.analogReference .INTERNAL1V1] ∧
    ¬ ((rduino_analog_reference_avr megaMacros
        (RduinoAnalogReference.toInt .Internal) ⟨[]⟩).calls
          = [.analogReference .INTERNAL]) := by
  decide

/-- C8 (amended): `rduino_analog_reference` makes no call for a reference the family
does not support (AVR: `Internal1v0`, `Internal1v65`, `Internal2v23`; SAMD:
`Internal1v1`, `Internal2v56`; either: a value outside the enumeration).  For a
reference of the family whose native constant the core defines it calls
`analogReference` exactly once with the constant of the same name: on AVR `Default`
and `External` always, `Internal`, `Internal1v1`, `Internal2v56` when `INTERNAL`,
`INTERNAL1V1`, `INTERNAL2V56` is defined; on SAMD all six. -/
theorem analog_reference_calls (m : AvrMacros) (h : Hardware) :
    (rduino_analog_reference_avr m (RduinoAnalogReference.toInt .Internal1v0) h = h ∧
     rduino_analog_reference_avr m (RduinoAnalogReference.toInt .Internal1v65) h = h ∧
     rduino_analog_reference_avr m (RduinoAnalogReference.toInt .Internal2v23) h = h ∧
     rduino_analog_reference_samd (RduinoAnalogReference.toInt .Internal1v1) h = h ∧
     rduino_analog_reference_samd (RduinoAnalogReference.toInt .Internal2v56) h = h ∧
     (∀ raw : Int, (∀ r : RduinoAnalogReference, raw ≠ r.toInt) →
        rduino_analog_reference_avr m raw h = h ∧ rduino_analog_reference_samd raw h = h)) ∧
    ((rduino_analog_reference_avr m (RduinoAnalogReference.toInt .Default) h).calls
        = h.calls ++ [.analogReference .DEFAULT] ∧
     (rduino_analog_reference_avr m (RduinoAnalogReference.toInt .External) h).calls
        = h.calls ++ [.analogReference .EXTERNAL] ∧
     (m.INTERNAL = true →
        (rduino_analog_reference_avr m (RduinoAnalogReference.toInt .Internal) h).calls
          = h.calls ++ [.analogReference .INTERNAL]) ∧
     (m.INTERNAL1V1 = true →
        (rduino_analog_reference_avr m (RduinoAnalogReference.toInt .Internal1v1) h).calls
          = h.calls ++ [.analogReference .INTERNAL1V1]) ∧
     (m.INTERNAL2V56 = true →
        (rduino_analog_reference_avr m (RduinoAnalogReference.toInt .Internal2v56) h).calls
          = h.calls ++ [.analogReference .INTERNAL2V56])) ∧
    ((rduino_analog_reference_samd (RduinoAnalogReference.toInt .Default) h).calls
        = h.calls ++ [.analogReference .AR_DEFAULT] ∧
     (rduino_analog_reference_samd (RduinoAnalogReference.toInt .External) h).calls
        = h.calls ++ [.analogReference .AR_EXTERNAL] ∧
     (rduino_analog_reference_samd (RduinoAnalogReference.toInt .Internal) h).calls
        = h.calls ++ [.analogReference .AR_INTERNAL] ∧
     (rduino_analog_reference_samd (RduinoAnalogReference.toInt .Internal1v0) h).calls
        = h.calls ++ [.analogReference .AR_INTERNAL1V0] ∧
     (rduino_analog_reference_samd (RduinoAnalogReference.toInt .Internal1v65) h).calls
        = h.calls ++ [.analogReference .AR_INTERNAL1V65] ∧
     (rduino_analog_reference_samd (RduinoAnalogReference.toInt .Internal2v23) h).calls
        = h.calls ++ [.analogReference .AR_INTERNAL2V23]) := by
  refine ⟨⟨rfl, rfl, rfl, rfl, rfl, ?_⟩, ⟨rfl, rfl, ?_, ?_, ?_⟩, ⟨rfl, rfl, rfl, rfl, rfl, rfl⟩⟩
  · intro raw hraw
    have hn := analogReference_ofInt_none_of_ne raw hraw
    simp [rduino_analog_reference_avr, avrReferenceSwitch, rduino_analog_reference_samd,
      samdReferenceSwitch, hn]
  · intro hm
    simp [rduino_analog_reference_avr, avrReferenceSwitch, RduinoAnalogReference.toInt,
      RduinoAnalogReference.ofInt?, hm, Hardware.call]
  · intro hm
    simp [rduino_analog_reference_avr, avrReferenceSwitch, RduinoAnalogReference.toInt,
      RduinoAnalogReference.ofInt?, hm, Hardware.call]
  · intro hm
    simp [rduino_analog_reference_avr, avrReferenceSwitch, RduinoAnalogReference.toInt,
      RduinoAnalogReference.ofInt?, hm, Hardware.call]

/-- C9: `rduino_attach_interrupt` calls `attachInterrupt` exactly once, with the same
line, the same callback and the native code of the trigger, for `Low`, `Change`,
`Rising` and `Falling` on every family and for `High` on SAMD; it makes no driver
call for `High` on a non-SAMD build and for any value outside the enumeration.
`rduino_detach_interrupt` calls `detachInterrupt` on the given line, whatever the
state. -/
theorem interrupt_calls (samd : Bool) (interrupt isr : Nat) (h : Hardware) :
    (rduino_attach_interrupt samd interrupt isr (RduinoInterruptMode.toInt .Low) h).calls
        = h.calls ++ [.attachInterrupt interrupt isr .LOW] ∧
    (rduino_attach_interrupt samd interrupt isr (RduinoInterruptMode.toInt .Change) h).calls
        = h.calls ++ [.attachInterrupt interrupt isr .CHANGE] ∧
    (rduino_attach_interrupt samd interrupt isr (RduinoInterruptMode.toInt .Rising) h).calls
        = h.calls ++ [.attachInterrupt interrupt isr .RISING] ∧
    (rduino_attach_interrupt samd interrupt isr (RduinoInterruptMode.toInt .Falling) h).calls
        = h.calls ++ [.attachInterrupt interrupt isr .FALLING] ∧
    (rduino_attach_interrupt true interrupt isr (RduinoInterruptMode.toInt .High) h).calls
        = h.calls ++ [.attachInterrupt interrupt isr .HIGH] ∧
    rduino_attach_interrupt false interrupt isr (RduinoInterruptMode.toInt .High) h = h ∧
    (∀ raw : Int, (∀ m : RduinoInterruptMode, raw ≠ m.toInt) →
        rduino_attach_interrupt samd interrupt isr raw h = h) ∧
    (rduino_detach_interrupt interrupt h).calls
        = h.calls ++ [.detachInterrupt interrupt] := by
  refine ⟨rfl, rfl, rfl, rfl, rfl, rfl, ?_, rfl⟩
  intro raw hraw
  simp [rduino_attach_interrupt, interruptModeSwitch,
    interruptMode_ofInt_none_of_ne raw hraw]

/-! ## Pin tables -/

/-- C10: for every board configuration (the Due, as the header records, leaving
`NUM_ANALOG_OUTPUTS` undefined), the declared length `N_IN` of
`RDUINO_ANALOG_INPUT_PINS` is `min(NUM_ANALOG_INPUTS, 16)` (0 when undefined) and the
declared length `N_OUT` of `RDUINO_ANALOG_OUTPUT_PINS` is `min(NUM_ANALOG_OUTPUTS, 8)`
(2 on the Due when undefined, otherwise 0 when undefined), so `N_IN ≤ 16` and
`N_OUT ≤ 8`; each table receives as many initialisers as its declared length, and
entry `i` of the input table is `A<i>`. -/
theorem pin_table_lengths (b : BoardConfig) (hb : BoardConfig.Supported b) :
    RDUINO_NUM_ANALOG_INPUTS b
        = (match b.NUM_ANALOG_INPUTS with
           | some n => min n 16
           | none => 0) ∧
    RDUINO_NUM_ANALOG_OUTPUTS b
        = (match b.NUM_ANALOG_OUTPUTS with
           | some n => min n 8
           | none => if b.ARDUINO_SAM_DUE then 2 else 0) ∧
    RDUINO_NUM_ANALOG_INPUTS b ≤ 16 ∧
    RDUINO_NUM_ANALOG_OUTPUTS b ≤ 8 ∧
    (RDUINO_ANALOG_INPUT_PINS b).length = RDUINO_NUM_ANALOG_INPUTS b ∧
    (RDUINO_ANALOG_OUTPUT_PINS b).length = RDUINO_NUM_ANALOG_OUTPUTS b ∧
    (∀ i, i < RDUINO_NUM_ANALOG_INPUTS b →
        (RDUINO_ANALOG_INPUT_PINS b)[i]? = some (PinName.A i)) := by
  refine ⟨?_, ?_, RDUINO_NUM_ANALOG_INPUTS_le b, RDUINO_NUM_ANALOG_OUTPUTS_le b, ?_, ?_, ?_⟩
  · unfold RDUINO_NUM_ANALOG_INPUTS
    split
    · split_ifs <;> omega
    · rfl
  · unfold RDUINO_NUM_ANALOG_OUTPUTS
    split
    · split_ifs <;> omega
    · rfl
  · simp [RDUINO_ANALOG_INPUT_PINS_eq]
  · cases hd : b.ARDUINO_SAM_DUE with
    | false => simp [RDUINO_ANALOG_OUTPUT_PINS_eq b hd]
    | true =>
      have hn := hb hd
      simp [RDUINO_ANALOG_OUTPUT_PINS, RDUINO_NUM_ANALOG_OUTPUTS, hd, hn]
  · intro i hi
    simp [RDUINO_ANALOG_INPUT_PINS_eq, List.getElem?_map, List.getElem?_range hi]

/-- C10, witness: the Arduino Due, whose output table is declared with length 2 and
receives `DAC0`, `DAC1`. -/
theorem pin_table_lengths_witness :
    BoardConfig.Supported dueBoard ∧
    (RDUINO_ANALOG_OUTPUT_PINS dueBoard).length = RDUINO_NUM_ANALOG_OUTPUTS dueBoard ∧
    RDUINO_NUM_ANALOG_OUTPUTS dueBoard = 2 ∧
    RDUINO_ANALOG_OUTPUT_PINS dueBoard = [.DAC 0, .DAC 1] ∧
    (RDUINO_ANALOG_INPUT_PINS dueBoard).length = 12 :=
  ⟨fun _ => rfl,
   (pin_table_lengths dueBoard (fun _ => rfl)).2.2.2.2.2.1,
   by decide, by decide, by decide⟩

/-! ## Well-known ports -/

/-- C11: each well-known port accessor returns null exactly when the board does not
define its `SERIAL_PORT_*` macro, and otherwise returns the address of its own static,
which then holds a port constructed from the object of that role (same address, the
tag of its class); `rduino_serial_default` never returns null; and an accessor
returns the same pointer on every call, whatever was called before, a repeated call
leaving the statics as they are. -/
theorem port_accessors (b : SerialBoard) (s : Statics) (hs : Statics.Sound b s)
    (slot : StaticSlot) :
    (((rduino_serial_usbvirtual b s).1 = none ↔ b.SERIAL_PORT_USBVIRTUAL = none) ∧
     ((rduino_serial_monitor b s).1 = none ↔ b.SERIAL_PORT_MONITOR = none) ∧
     ((rduino_serial_linuxbridge b s).1 = none ↔ b.SERIAL_PORT_LINUXBRIDGE = none) ∧
     ((rduino_serial_hardware b s).1 = none ↔ b.SERIAL_PORT_HARDWARE = none) ∧
     ((rduino_serial_hardware_open b s).1 = none ↔ b.SERIAL_PORT_HARDWARE_OPEN = none) ∧
     (rduino_serial_default b s).1 = some .serial_default) ∧
    (∀ x, b.role slot = some x →
      (accessor slot b s).1 = some slot ∧
      (accessor slot b s).2 slot = some (RduinoSerial.construct x) ∧
      (RduinoSerial.construct x).peripheral = x.address) ∧
    (∀ t : Statics, (accessor slot b t).1 = (accessor slot b s).1) ∧
    accessor slot b (accessor slot b s).2 = accessor slot b s ∧
    Statics.Sound b (accessor slot b s).2 := by
  refine ⟨⟨?_, ?_, ?_, ?_, ?_, ?_⟩, ?_, ?_, ?_, ?_⟩
  · unfold rduino_serial_usbvirtual
    cases b.SERIAL_PORT_USBVIRTUAL <;> simp [staticSerial_fst]
  · unfold rduino_serial_monitor
    cases b.SERIAL_PORT_MONITOR <;> simp [staticSerial_fst]
  · unfold rduino_serial_linuxbridge
    cases b.SERIAL_PORT_LINUXBRIDGE <;> simp [staticSerial_fst]
  · unfold rduino_serial_hardware
    cases b.SERIAL_PORT_HARDWARE <;> simp [staticSerial_fst]
  · unfold rduino_serial_hardware_open
    cases b.SERIAL_PORT_HARDWARE_OPEN <;> simp [staticSerial_fst]
  · exact staticSerial_fst _ _ _
  · intro x hx
    rw [accessor_eq_role, hx]
    refine ⟨staticSerial_fst _ _ _, ?_, ?_⟩
    · rw [staticSerial_snd_self]
      cases hv : s slot with
      | none => rfl
      | some v =>
        obtain ⟨y, hy, hvy⟩ := hs slot v hv
        rw [hx] at hy
        cases hy
        simp [hvy]
    · unfold RduinoSerial.construct
      cases x.cls <;> rfl
  · intro t
    rw [accessor_eq_role, accessor_eq_role]
    cases b.role slot with
    | none => rfl
    | some x => simp [staticSerial_fst]
  · rw [accessor_eq_role]
    cases hr : b.role slot with
    | none => simp [accessor_eq_role, hr]
    | some x => simp [accessor_eq_role, hr, staticSerial_twice]
  · rw [accessor_eq_role]
    cases hr : b.role slot with
    | none => exact hs
    | some x =>
      intro k v hk
      by_cases hks : k = slot
      · subst hks
        simp only [staticSerial_snd_self] at hk
        cases hv : s k with
        | none =>
          rw [hv] at hk
          cases hk
          exact ⟨x, hr, rfl⟩
        | some w =>
          rw [hv] at hk
          cases hk
          exact hs k v hv
      · simp only [staticSerial_snd_other slot k x s hks] at hk
        exact hs k v hk

/-- C11, witness: the sample board at program start, asked for the hardware port. -/
theorem port_accessors_witness :
    Statics.Sound sampleSerialBoard Statics.initial ∧
    (rduino_serial_linuxbridge sampleSerialBoard Statics.initial).1 = none ∧
    (rduino_serial_hardware sampleSerialBoard Statics.initial).1 = some .serial_hardware ∧
    (accessor .serial_hardware sampleSerialBoard Statics.initial).2 .serial_hardware
      = some { type := .Uart, peripheral := 200 } ∧
    accessor .serial_hardware sampleSerialBoard
        (accessor .serial_hardware sampleSerialBoard Statics.initial).2
      = accessor .serial_hardware sampleSerialBoard Statics.initial :=
  have hs : Statics.Sound sampleSerialBoard Statics.initial :=
    fun _ _ hv => absurd hv (by simp [Statics.initial])
  ⟨hs, by decide, by decide, by decide,
    (port_accessors sampleSerialBoard Statics.initial hs .serial_hardware).2.2.2.1⟩

/-! ## The AVR fall-through of `Internal` -/

/-- C12: on an AVR build whose core does not define `INTERNAL`, the request `Internal`
behaves exactly like the request `Internal1v1` (one call `analogReference(INTERNAL1V1)`)
if `INTERNAL1V1` is defined, otherwise exactly like `Internal2v56` (one call
`analogReference(INTERNAL2V56)`) if `INTERNAL2V56` is defined, otherwise it makes no
driver call; when `INTERNAL` is defined it calls `analogReference(INTERNAL)` and
nothing else. -/
theorem avr_internal_fall_through (m : AvrMacros) (h : Hardware) :
    (m.INTERNAL = false → m.INTERNAL1V1 = true →
      rduino_analog_reference_avr m (RduinoAnalogReference.toInt .Internal) h
        = rduino_analog_reference_avr m (RduinoAnalogReference.toInt .Internal1v1) h ∧
      (rduino_analog_reference_avr m (RduinoAnalogReference.toInt .Internal) h).calls
        = h.calls ++ [.analogReference .INTERNAL1V1]) ∧
    (m.INTERNAL = false → m.INTERNAL1V1 = false → m.INTERNAL2V56 = true →
      rduino_analog_reference_avr m (RduinoAnalogReference.toInt .Internal) h
        = rduino_analog_reference_avr m (RduinoAnalogReference.toInt .Internal2v56) h ∧
      (rduino_analog_reference_avr m (RduinoAnalogReference.toInt .Internal) h).calls
        = h.calls ++ [.analogReference .INTERNAL2V56]) ∧
    (m.INTERNAL = false → m.INTERNAL1V1 = false → m.INTERNAL2V56 = false →
      rduino_analog_reference_avr m (RduinoAnalogReference.toInt .Internal) h = h) ∧
    (m.INTERNAL = true →
      (rduino_analog_reference_avr m (RduinoAnalogReference.toInt .Internal) h).calls
        = h.calls ++ [.analogReference .INTERNAL]) := by
  obtain ⟨i, i1, i2⟩ := m
  refine ⟨?_, ?_, ?_, ?_⟩
  · rintro hi h1
    simp only at hi h1
    subst hi h1
    exact ⟨rfl, rfl⟩
  · rintro hi h1 h2
    simp only at hi h1 h2
    subst hi h1 h2
    exact ⟨rfl, rfl⟩
  · rintro hi h1 h2
    simp only at hi h1 h2
    subst hi h1 h2
    rfl
  · rintro hi
    simp only at hi
    subst hi
    rfl

end Rduino
